import Mathlib

/-
Verification of the playback orchestration core in src/cogs/music.py.

The Python module is embedded shallowly:
  - pure helpers (format_duration_ms, the playlist cap in Music.play) become
    Lean functions;
  - the per-guild mutable GuildMusicState becomes an explicit record threaded
    through every operation;
  - external collaborators (the wavelink player, the chat platform) are
    represented by explicit oracle records (PlayerState, DrainEnv, PanelEnv)
    whose fields stand for the values the Python code reads from them, and the
    remote calls the code issues are recorded as an Effect list;
  - the player_loop coroutine is decomposed into its three structural phases,
    loop_entry (loop top, lines 402 to 435), inner_loop (the per-track play
    loop, lines 437 to 472) and after_inner (the queue-ended and idle-leave
    tail, lines 474 to 504), composed by run_iteration; concurrent flag writes
    that the loop observes mid-wait are injected through PlayOutcome oracles.
-/

/-- Opaque wavelink.Playable reference, identified by an id. -/
abbrev Playable := Nat

/-- Track dataclass: a playable reference plus the requester identity. -/
structure Track where
  playable : Playable
  requester_id : Nat
deriving DecidableEq

/-- GuildMusicState.__init__ fields (src/cogs/music.py lines 61 to 83).
The asyncio.Queue is modelled as the list of tracks it currently holds,
monotonic time as a rational. -/
structure GuildMusicState where
  queue : List Track
  current : Option Track
  loop_enabled : Bool
  panel_channel_id : Option Nat
  panel_message_id : Option Nat
  stopped : Bool
  cooldown_until : ℚ
  last_play_text_channel_id : Option Nat
  idle_leave_seconds : Nat
deriving DecidableEq

/-- The initial state built by GuildMusicState.__init__. -/
def GuildMusicState.init : GuildMusicState :=
  { queue := []
    current := none
    loop_enabled := false
    panel_channel_id := none
    panel_message_id := none
    stopped := false
    cooldown_until := 0
    last_play_text_channel_id := none
    idle_leave_seconds := 120 }

/-- The attributes the code reads from a wavelink.Player via getattr:
connected, channel, playing, paused. A missing player is `Option.none`
at the use sites. -/
structure PlayerState where
  connected : Bool
  channelId : Option Nat
  playing : Bool
  paused : Bool
deriving DecidableEq

/-- Remote calls and messages the code issues, recorded in order. -/
inductive Effect where
  | nodePlay (t : Track)
  | nodeStop
  | nodeDisconnect
  | nodePause (flag : Bool)
  | panelRefresh
  | panelEditQueueEnded
  | panelEditInPlace
  | panelSendNew (channelId msgId : Nat)
  | sendIdleLeave (channelId : Nat)
  | followup (msg : String)
  | ephemeral (msg : String)
deriving DecidableEq

/-- format_duration_ms (lines 22 to 32). `not ms or ms <= 0` collapses to
the none case plus the `ms ≤ 0` test, since `not 0` is true in Python. -/
def format_duration_ms : Option Int → String
  | none => "Unknown"
  | some ms =>
    if ms ≤ 0 then "Unknown"
    else
      let total_s : Nat := ms.toNat / 1000
      let m := total_s / 60
      let s := total_s % 60
      if m ≥ 60 then
        let h := m / 60
        let m2 := m % 60
        toString h ++ "h " ++ toString m2 ++ "m " ++ toString s ++ "s"
      else
        toString m ++ "m " ++ toString s ++ "s"

/-- C8: the duration formatter renders null and non-positive milliseconds as
"Unknown", values under one hour as "Ym Zs", larger values as "Xh Ym Zs";
in particular 65000 renders as "1m 5s" and 3725000 as "1h 2m 5s". -/
theorem format_duration_cases :
    format_duration_ms none = "Unknown"
    ∧ (∀ v : Int, v ≤ 0 → format_duration_ms (some v) = "Unknown")
    ∧ (∀ v : Int, 0 < v → v < 3600000 →
        format_duration_ms (some v) =
          toString (v.toNat / 1000 / 60) ++ "m " ++ toString (v.toNat / 1000 % 60) ++ "s")
    ∧ (∀ v : Int, 3600000 ≤ v →
        format_duration_ms (some v) =
          toString (v.toNat / 1000 / 60 / 60) ++ "h " ++ toString (v.toNat / 1000 / 60 % 60)
            ++ "m " ++ toString (v.toNat / 1000 % 60) ++ "s")
    ∧ format_duration_ms (some 65000) = "1m 5s"
    ∧ format_duration_ms (some 3725000) = "1h 2m 5s" := by
  refine ⟨rfl, ?_, ?_, ?_, by decide, by decide⟩
  · intro v hv
    simp only [format_duration_ms, if_pos hv]
  · intro v hv hlt
    have h1 : ¬ v ≤ 0 := by omega
    have h2 : ¬ v.toNat / 1000 / 60 ≥ 60 := by omega
    simp only [format_duration_ms, if_neg h1, if_neg h2]
  · intro v hv
    have h1 : ¬ v ≤ 0 := by omega
    have h2 : v.toNat / 1000 / 60 ≥ 60 := by omega
    simp only [format_duration_ms, if_neg h1, if_pos h2]

/-- Witness for format_duration_cases at concrete inputs. -/
theorem format_duration_cases_witness :
    format_duration_ms (some (-7)) = "Unknown"
    ∧ format_duration_ms (some 65000) =
        toString ((65000 : Int).toNat / 1000 / 60) ++ "m "
          ++ toString ((65000 : Int).toNat / 1000 % 60) ++ "s"
    ∧ format_duration_ms (some 3725000) =
        toString ((3725000 : Int).toNat / 1000 / 60 / 60) ++ "h "
          ++ toString ((3725000 : Int).toNat / 1000 / 60 % 60) ++ "m "
          ++ toString ((3725000 : Int).toNat / 1000 % 60) ++ "s" :=
  ⟨format_duration_cases.2.1 (-7) (by norm_num),
   format_duration_cases.2.2.1 65000 (by norm_num) (by norm_num),
   format_duration_cases.2.2.2.1 3725000 (by norm_num)⟩

/-- MusicPanelView.interaction_check (lines 92 to 119): the denial gate run
before every panel button callback. Returns the state it leaves behind, the
allow/deny verdict, and the ephemeral messages sent. The memberVoice argument
is the voice channel id of the invoker, none when the invoker is not a Member
or has no voice-channel membership. -/
def interaction_check (st : GuildMusicState) (now : ℚ) (player : Option PlayerState)
    (memberVoice : Option Nat) : GuildMusicState × Bool × List Effect :=
  if now < st.cooldown_until then
    (st, false, [Effect.ephemeral "⏳ Wait 1 second..."])
  else
    match player with
    | none => (st, false, [Effect.ephemeral "Bot is not connected to a voice channel."])
    | some p =>
      if p.connected = false then
        (st, false, [Effect.ephemeral "Bot is not connected to a voice channel."])
      else
        match p.channelId with
        | none => (st, false, [Effect.ephemeral "Bot is not connected to a voice channel."])
        | some botCh =>
          match memberVoice with
          | none => (st, false, [Effect.ephemeral "You must be in the same voice channel as the bot."])
          | some v =>
            if v ≠ botCh then
              (st, false, [Effect.ephemeral "You must be in the same voice channel as the bot."])
            else
              (st, true, [])

/-- The combined condition of line 106: `not player or not player.connected
or not player.channel`. -/
def bot_disconnected : Option PlayerState → Bool
  | none => true
  | some p => !p.connected || p.channelId.isNone

/-- Music._ensure_same_vc (lines 269 to 288): the same voice-channel gate,
without the cooldown step, used by the /stop slash command. It reads no
session state. -/
def ensure_same_vc_check (player : Option PlayerState) (memberVoice : Option Nat) :
    Bool × List Effect :=
  match player with
  | none => (false, [Effect.ephemeral "Bot is not connected to a voice channel."])
  | some p =>
    if p.connected = false then
      (false, [Effect.ephemeral "Bot is not connected to a voice channel."])
    else
      match p.channelId with
      | none => (false, [Effect.ephemeral "Bot is not connected to a voice channel."])
      | some botCh =>
        match memberVoice with
        | none => (false, [Effect.ephemeral "You must be in the same voice channel as the bot."])
        | some v =>
          if v ≠ botCh then
            (false, [Effect.ephemeral "You must be in the same voice channel as the bot."])
          else
            (true, [])

/-- Music._hit_cooldown (lines 187 to 189). -/
def hit_cooldown (st : GuildMusicState) (now : ℚ) : GuildMusicState :=
  { st with cooldown_until := now + 1 }

/-- The queue-purge loop `while not st.queue.empty(): st.queue.get_nowait()`
used at lines 413 to 417 and 616 to 620. -/
def drain_queue : List Track → List Track
  | [] => []
  | _ :: rest => drain_queue rest

theorem drain_queue_eq_nil (q : List Track) : drain_queue q = [] := by
  induction q with
  | nil => rfl
  | cons _ _ ih => simpa [drain_queue] using ih

/-- Music.get_panel_message (lines 326 to 338) reduced to whether a message is
found: both panel ids must be set and the channel lookup plus fetch must
succeed (collapsed into fetchOk). -/
def get_panel_message_exists (st : GuildMusicState) (fetchOk : Bool) : Bool :=
  st.panel_channel_id.isSome && st.panel_message_id.isSome && fetchOk

/-- Music._btn_play (lines 507 to 531). -/
def btn_play (st : GuildMusicState) (now : ℚ) (player : Option PlayerState)
    (_panelFetchOk : Bool) : GuildMusicState × List Effect :=
  let st1 := hit_cooldown st now
  match player with
  | none => (st1, [Effect.followup "Not connected."])
  | some p =>
    if p.connected = false then (st1, [Effect.followup "Not connected."])
    else if p.paused then
      (st1, [Effect.nodePause false, Effect.followup "▶️ Resumed.", Effect.panelRefresh])
    else
      (st1, [Effect.followup "Already playing.", Effect.panelRefresh])

/-- Music._btn_pause (lines 533 to 557). -/
def btn_pause (st : GuildMusicState) (now : ℚ) (player : Option PlayerState)
    (_panelFetchOk : Bool) : GuildMusicState × List Effect :=
  let st1 := hit_cooldown st now
  match player with
  | none => (st1, [Effect.followup "Not connected."])
  | some p =>
    if p.connected = false then (st1, [Effect.followup "Not connected."])
    else if p.playing && !p.paused then
      (st1, [Effect.nodePause true, Effect.followup "⏸️ Paused.", Effect.panelRefresh])
    else
      (st1, [Effect.followup "Nothing is playing.", Effect.panelRefresh])

/-- Music._btn_skip (lines 559 to 591): note `st.loop_enabled = False` at
line 568 runs before the player-connected check and before any node call. -/
def btn_skip (st : GuildMusicState) (now : ℚ) (player : Option PlayerState)
    (panelFetchOk : Bool) : GuildMusicState × List Effect :=
  let st1 := hit_cooldown st now
  let st2 := { st1 with loop_enabled := false }
  match player with
  | none => (st2, [Effect.followup "Not connected."])
  | some p =>
    if p.connected = false then (st2, [Effect.followup "Not connected."])
    else
      let effs1 := if p.playing || p.paused then
                     [Effect.nodeStop, Effect.followup "⏭️ Skipped."]
                   else
                     [Effect.followup "Nothing to skip."]
      let effs2 := if st2.queue = [] ∧ st2.current = none then
                     (if get_panel_message_exists st2 panelFetchOk then
                        [Effect.panelEditQueueEnded]
                      else [])
                   else [Effect.panelRefresh]
      (st2, effs1 ++ effs2)

/-- Music._btn_stop (lines 593 to 633). -/
def btn_stop (st : GuildMusicState) (now : ℚ) (player : Option PlayerState)
    (panelFetchOk : Bool) : GuildMusicState × List Effect :=
  let st1 := hit_cooldown st now
  let st2 := { st1 with stopped := true, loop_enabled := false }
  let effs1 := match player with
    | none => []
    | some p => if p.connected then [Effect.nodeStop, Effect.nodeDisconnect] else []
  let st3 := { st2 with queue := drain_queue st2.queue, current := none }
  let effs2 := if get_panel_message_exists st3 panelFetchOk then
                 [Effect.panelEditQueueEnded]
               else []
  let st4 := { st3 with panel_channel_id := none, panel_message_id := none }
  (st4, effs1 ++ effs2 ++ [Effect.followup "⏹️ Stopped."])

/-- Music._btn_loop (lines 635 to 647). -/
def btn_loop (st : GuildMusicState) (now : ℚ) (_player : Option PlayerState)
    (_panelFetchOk : Bool) : GuildMusicState × List Effect :=
  let st1 := hit_cooldown st now
  let st2 := { st1 with loop_enabled := !st1.loop_enabled }
  (st2, [Effect.followup ("🔁 Loop: " ++ (if st2.loop_enabled then "On" else "Off")),
         Effect.panelRefresh])

/-- The five panel buttons (lines 121 to 139). -/
inductive Button where
  | play
  | pause
  | skip
  | stop
  | loopToggle
deriving DecidableEq

def dispatch_button : Button → GuildMusicState → ℚ → Option PlayerState → Bool →
    GuildMusicState × List Effect
  | Button.play => btn_play
  | Button.pause => btn_pause
  | Button.skip => btn_skip
  | Button.stop => btn_stop
  | Button.loopToggle => btn_loop

/-- A full panel button interaction: discord.py runs interaction_check first
and invokes the button callback only on an allow verdict. -/
def panel_press (b : Button) (st : GuildMusicState) (now : ℚ) (player : Option PlayerState)
    (memberVoice : Option Nat) (panelFetchOk : Bool) : GuildMusicState × List Effect :=
  let r := interaction_check st now player memberVoice
  if r.2.1 then
    let r2 := dispatch_button b r.1 now player panelFetchOk
    (r2.1, r.2.2 ++ r2.2)
  else
    (r.1, r.2.2)

/-- Music.stop (lines 725 to 730): _ensure_same_vc gates _btn_stop. -/
def stop_command (st : GuildMusicState) (now : ℚ) (player : Option PlayerState)
    (memberVoice : Option Nat) (panelFetchOk : Bool) : GuildMusicState × List Effect :=
  let c := ensure_same_vc_check player memberVoice
  if c.1 then btn_stop st now player panelFetchOk
  else (st, c.2)

/-- interaction_check assigns nothing to the session: every branch returns the
input state. Shared by the frame theorems below. -/
theorem interaction_check_state_eq (st : GuildMusicState) (now : ℚ)
    (player : Option PlayerState) (mv : Option Nat) :
    (interaction_check st now player mv).1 = st := by
  unfold interaction_check
  rcases player with _ | p
  · split <;> rfl
  · rcases h : p.channelId with _ | botCh <;> rcases mv with _ | v <;>
      simp only [h] <;> split <;> (try split) <;> (try split) <;> rfl

/-- bot_disconnected unfolded: false exactly when the player is present,
connected, and has a channel. -/
theorem bot_disconnected_eq_false_iff (p : PlayerState) :
    bot_disconnected (some p) = false ↔
      p.connected = true ∧ ∃ c, p.channelId = some c := by
  simp only [bot_disconnected, Bool.or_eq_false_iff, Bool.not_eq_false',
    Option.isNone_eq_false_iff, Option.isSome_iff_exists]

/-- C4: interaction_check evaluates its denial conditions in order cooldown,
bot-not-connected, invoker-not-in-voice, channel-mismatch, answers with the
message of the first failing condition, and allows only when all four pass. -/
theorem interaction_check_order_spec :
    (∀ st now player mv, now < st.cooldown_until →
        interaction_check st now player mv =
          (st, false, [Effect.ephemeral "⏳ Wait 1 second..."]))
    ∧ (∀ st now player mv, ¬ now < st.cooldown_until → bot_disconnected player = true →
        interaction_check st now player mv =
          (st, false, [Effect.ephemeral "Bot is not connected to a voice channel."]))
    ∧ (∀ st now p, ¬ now < st.cooldown_until → bot_disconnected (some p) = false →
        interaction_check st now (some p) none =
          (st, false, [Effect.ephemeral "You must be in the same voice channel as the bot."]))
    ∧ (∀ st now p v, ¬ now < st.cooldown_until → bot_disconnected (some p) = false →
        p.channelId ≠ some v →
        interaction_check st now (some p) (some v) =
          (st, false, [Effect.ephemeral "You must be in the same voice channel as the bot."]))
    ∧ (∀ st now p v, ¬ now < st.cooldown_until → bot_disconnected (some p) = false →
        p.channelId = some v →
        interaction_check st now (some p) (some v) = (st, true, [])) := by
  refine ⟨?_, ?_, ?_, ?_, ?_⟩
  · intro st now player mv h
    simp [interaction_check, h]
  · intro st now player mv h1 h2
    unfold interaction_check
    rw [if_neg h1]
    rcases player with _ | p
    · rfl
    · rcases hc : p.connected with _ | _
      · simp [hc]
      · simp only [bot_disconnected, hc, Bool.not_true, Bool.false_or,
          Option.isNone_iff_eq_none] at h2
        simp [hc, h2]
  · intro st now p h1 h2
    obtain ⟨hc, c, hch⟩ := (bot_disconnected_eq_false_iff p).1 h2
    simp [interaction_check, h1, hc, hch]
  · intro st now p v h1 h2 hne
    obtain ⟨hc, c, hch⟩ := (bot_disconnected_eq_false_iff p).1 h2
    have : v ≠ c := by
      intro h
      exact hne (by rw [hch, h])
    simp [interaction_check, h1, hc, hch, this]
  · intro st now p v h1 h2 heq
    obtain ⟨hc, c, hch⟩ := (bot_disconnected_eq_false_iff p).1 h2
    rw [hch] at heq
    have hvc : v = c := by
      injection heq.symm
    simp [interaction_check, h1, hc, hch, hvc]

/-- Witness for interaction_check_order_spec: each branch hit at a concrete
input. -/
theorem interaction_check_order_spec_witness :
    interaction_check { GuildMusicState.init with cooldown_until := 5 } 0 none none =
      ({ GuildMusicState.init with cooldown_until := 5 }, false,
        [Effect.ephemeral "⏳ Wait 1 second..."])
    ∧ interaction_check GuildMusicState.init 3 none none =
      (GuildMusicState.init, false,
        [Effect.ephemeral "Bot is not connected to a voice channel."])
    ∧ interaction_check GuildMusicState.init 3 (some ⟨true, some 9, true, false⟩) none =
      (GuildMusicState.init, false,
        [Effect.ephemeral "You must be in the same voice channel as the bot."])
    ∧ interaction_check GuildMusicState.init 3 (some ⟨true, some 9, true, false⟩) (some 8) =
      (GuildMusicState.init, false,
        [Effect.ephemeral "You must be in the same voice channel as the bot."])
    ∧ interaction_check GuildMusicState.init 3 (some ⟨true, some 9, true, false⟩) (some 9) =
      (GuildMusicState.init, true, []) :=
  ⟨interaction_check_order_spec.1 _ 0 none none (by norm_num [GuildMusicState.init]),
   interaction_check_order_spec.2.1 _ 3 none none (by norm_num [GuildMusicState.init]) rfl,
   interaction_check_order_spec.2.2.1 _ 3 ⟨true, some 9, true, false⟩
     (by norm_num [GuildMusicState.init]) rfl,
   interaction_check_order_spec.2.2.2.1 _ 3 ⟨true, some 9, true, false⟩ 8
     (by norm_num [GuildMusicState.init]) rfl (by decide),
   interaction_check_order_spec.2.2.2.2 _ 3 ⟨true, some 9, true, false⟩ 9
     (by norm_num [GuildMusicState.init]) rfl rfl⟩

/-- C5: the authorization check never writes cooldown_until (it returns the
session state unchanged in every branch), _hit_cooldown is the only cooldown
writer, and it is invoked by each mutating button handler, which commits
cooldown_until to now plus one second. -/
theorem cooldown_frame_spec :
    (∀ st now player mv, (interaction_check st now player mv).1 = st)
    ∧ (∀ st now, (hit_cooldown st now).cooldown_until = now + 1)
    ∧ (∀ b st now player pf,
        ((dispatch_button b st now player pf).1).cooldown_until = now + 1) := by
  refine ⟨interaction_check_state_eq, fun st now => rfl, ?_⟩
  intro b st now player pf
  cases b <;> rcases player with _ | p <;>
    simp [dispatch_button, btn_play, btn_pause, btn_skip, btn_stop, btn_loop,
      hit_cooldown] <;>
    split_ifs <;> rfl

/-- C9: a denied panel-button interaction leaves the session untouched (in
particular loop_enabled, stopped and the queue), and a /stop denied by
_ensure_same_vc does too. -/
theorem denied_no_mutation :
    (∀ b st now player mv pf, (interaction_check st now player mv).2.1 = false →
        (panel_press b st now player mv pf).1 = st)
    ∧ (∀ st now player mv pf, (ensure_same_vc_check player mv).1 = false →
        (stop_command st now player mv pf).1 = st) := by
  constructor
  · intro b st now player mv pf h
    simp [panel_press, h, interaction_check_state_eq]
  · intro st now player mv pf h
    simp [stop_command, h]

/-- Witness for denied_no_mutation: a cooldown denial and a wrong-channel
/stop denial, each leaving a non-trivial session state intact. -/
theorem denied_no_mutation_witness :
    (interaction_check
        { GuildMusicState.init with cooldown_until := 5, queue := [⟨1, 2⟩], loop_enabled := true }
        0 none none).2.1 = false
    ∧ (panel_press Button.stop
        { GuildMusicState.init with cooldown_until := 5, queue := [⟨1, 2⟩], loop_enabled := true }
        0 none none true).1 =
      { GuildMusicState.init with cooldown_until := 5, queue := [⟨1, 2⟩], loop_enabled := true }
    ∧ (stop_command
        { GuildMusicState.init with queue := [⟨1, 2⟩], loop_enabled := true }
        0 (some ⟨true, some 9, true, false⟩) (some 8) true).1 =
      { GuildMusicState.init with queue := [⟨1, 2⟩], loop_enabled := true } :=
  ⟨by decide,
   denied_no_mutation.1 Button.stop _ 0 none none true (by decide),
   denied_no_mutation.2 _ 0 (some ⟨true, some 9, true, false⟩) (some 8) true (by decide)⟩

/-- C10: _btn_skip sets loop_enabled to false unconditionally, before the
connected check and before any node stop call, so every skip press disables
loop mode, including when nothing is playing and the press answers
"Nothing to skip.". -/
theorem skip_disables_loop_spec :
    (∀ st now player pf, ((btn_skip st now player pf).1).loop_enabled = false)
    ∧ (∀ st now p pf, p.connected = true → p.playing = false → p.paused = false →
        Effect.followup "Nothing to skip." ∈ (btn_skip st now (some p) pf).2
        ∧ Effect.nodeStop ∉ (btn_skip st now (some p) pf).2) := by
  constructor
  · intro st now player pf
    rcases player with _ | p
    · simp [btn_skip, hit_cooldown]
    · simp [btn_skip, hit_cooldown]
      split_ifs <;> rfl
  · intro st now p pf hc hpl hpa
    simp only [btn_skip, hc, hpl, hpa]
    split_ifs <;> simp_all

/-- Witness for skip_disables_loop_spec with loop mode initially on and an
idle connected player. -/
theorem skip_disables_loop_spec_witness :
    Effect.followup "Nothing to skip." ∈
      (btn_skip { GuildMusicState.init with loop_enabled := true } 0
        (some ⟨true, some 9, false, false⟩) true).2
    ∧ Effect.nodeStop ∉
      (btn_skip { GuildMusicState.init with loop_enabled := true } 0
        (some ⟨true, some 9, false, false⟩) true).2 :=
  skip_disables_loop_spec.2 _ 0 ⟨true, some 9, false, false⟩ true rfl rfl rfl

/-- Result of the top of one player_loop iteration (lines 402 to 435):
either the task returns, the 2-second bounded dequeue times out and the loop
re-enters, or a track is dequeued and handed to the inner play loop. -/
inductive LoopStep where
  | exit (st : GuildMusicState) (effs : List Effect)
  | timeout (st : GuildMusicState)
  | dequeued (st : GuildMusicState) (t : Track)
deriving DecidableEq

/-- player_loop lines 402 to 435: the connectivity guard runs first (lines
403 to 406), the stopped guard second (lines 408 to 430), then the bounded
dequeue (lines 432 to 435). -/
def loop_entry (st : GuildMusicState) (player : Option PlayerState) : LoopStep :=
  match player with
  | none => LoopStep.exit { st with current := none } []
  | some p =>
    if p.connected = false then
      LoopStep.exit { st with current := none } []
    else if st.stopped then
      LoopStep.exit
        { st with
          stopped := false
          current := none
          loop_enabled := false
          queue := drain_queue st.queue
          panel_channel_id := none
          panel_message_id := none }
        [Effect.nodeStop, Effect.nodeDisconnect]
    else
      match st.queue with
      | [] => LoopStep.timeout st
      | t :: q => LoopStep.dequeued { st with queue := q } t

/-- The environment of one play attempt in the inner loop (lines 437 to 472):
either player.play raises, or it succeeds and the subsequent status poll ends
in one of three ways, described by the flag values the loop observes:
stoppedDuringPoll is the stopped flag seen inside the poll (line 456, issuing
a node stop), stoppedAtCheck the flag seen at line 464, loopAtCheck the
loop_enabled flag seen at line 468. Concurrent button presses are the writers
of those flags. -/
inductive PlayOutcome where
  | failed
  | ok (stoppedDuringPoll stoppedAtCheck loopAtCheck : Bool)
deriving DecidableEq

/-- Result of the inner play loop: exited back into the iteration tail, or
the supplied outcome trace ran out mid-loop. -/
inductive InnerResult where
  | exited (st : GuildMusicState) (effs : List Effect)
  | pending (st : GuildMusicState) (effs : List Effect) (next : Track)
deriving DecidableEq

def addEffects (es : List Effect) : InnerResult → InnerResult
  | InnerResult.exited st effs => InnerResult.exited st (es ++ effs)
  | InnerResult.pending st effs t => InnerResult.pending st (es ++ effs) t

/-- player_loop lines 437 to 472, one outcome consumed per play attempt.
On a play failure the driver clears current and, when the queue is not empty,
dequeues the next track with get_nowait and retries at once (lines 441 to
450); on success it refreshes the panel and polls until the track ends or the
stopped flag is observed (lines 452 to 472). -/
def inner_loop (st : GuildMusicState) (t : Track) : List PlayOutcome → InnerResult
  | [] => InnerResult.pending st [] t
  | PlayOutcome.failed :: rest =>
    match st.queue with
    | [] => InnerResult.exited { st with current := none } [Effect.nodePlay t]
    | t2 :: q =>
      addEffects [Effect.nodePlay t]
        (inner_loop { st with current := none, queue := q } t2 rest)
  | PlayOutcome.ok sd sa la :: rest =>
    if sd then
      InnerResult.exited { st with current := none, stopped := true }
        [Effect.nodePlay t, Effect.panelRefresh, Effect.nodeStop]
    else if sa then
      InnerResult.exited { st with current := none, stopped := true }
        [Effect.nodePlay t, Effect.panelRefresh]
    else if la then
      addEffects [Effect.nodePlay t, Effect.panelRefresh]
        (inner_loop { st with current := some t } t rest)
    else
      InnerResult.exited { st with current := none }
        [Effect.nodePlay t, Effect.panelRefresh]

/-- Environment of the queue-ended tail (lines 474 to 504): whether the panel
message fetch succeeds, the tracks enqueued concurrently during the idle
sleep, the player state read after the sleep, and whether the last /play text
channel still resolves to a text channel. -/
structure DrainEnv where
  panelFetchOk : Bool
  arrivals : List Track
  playerAfterSleep : Option PlayerState
  lastChannelIsText : Bool
deriving DecidableEq

/-- Music._send_to_last_play_channel (lines 372 to 379): sends only when the
stored channel id is set and resolves to a text channel. -/
def send_to_last_play_channel (st : GuildMusicState) (chIsText : Bool) : List Effect :=
  match st.last_play_text_channel_id with
  | none => []
  | some ch => if chIsText then [Effect.sendIdleLeave ch] else []

/-- What the iteration tail does: fall (back) to the loop top, or return. -/
inductive AfterInner where
  | toLoopTop (st : GuildMusicState) (effs : List Effect)
  | exit (st : GuildMusicState) (effs : List Effect)
deriving DecidableEq

/-- player_loop lines 474 to 504. When the queue is empty with stopped and
loop_enabled both unset: edit the panel (if found) to the queue-ended embed
without buttons, sleep idle_leave_seconds, then re-read the player. A
disconnected player ends the task at once; a non-empty queue or active
playback resumes the main loop; otherwise the idle-leave notice is sent, the
node disconnected once, panel references cleared, and the task returns. -/
def after_inner (st : GuildMusicState) (env : DrainEnv) : AfterInner :=
  if st.queue = [] ∧ st.stopped = false ∧ st.loop_enabled = false then
    let e0 := if get_panel_message_exists st env.panelFetchOk then
                [Effect.panelEditQueueEnded]
              else []
    let st1 := { st with queue := st.queue ++ env.arrivals }
    match env.playerAfterSleep with
    | none => AfterInner.exit { st1 with current := none } e0
    | some p =>
      if p.connected = false then
        AfterInner.exit { st1 with current := none } e0
      else if st1.queue ≠ [] ∨ p.playing = true ∨ p.paused = true then
        AfterInner.toLoopTop st1 e0
      else
        AfterInner.exit
          { st1 with current := none, panel_channel_id := none, panel_message_id := none }
          (e0 ++ send_to_last_play_channel st1 env.lastChannelIsText ++ [Effect.nodeDisconnect])
  else
    AfterInner.toLoopTop st []

/-- Result of one full pass of the player_loop body. -/
inductive IterResult where
  | exit (st : GuildMusicState) (effs : List Effect)
  | toLoopTop (st : GuildMusicState) (effs : List Effect)
  | timeout (st : GuildMusicState)
  | pending (st : GuildMusicState) (effs : List Effect) (next : Track)
deriving DecidableEq

/-- One full pass of the player_loop body: loop top, then for a dequeued
track the inner play loop, then the queue-ended tail. -/
def run_iteration (st : GuildMusicState) (player : Option PlayerState)
    (trace : List PlayOutcome) (denv : DrainEnv) : IterResult :=
  match loop_entry st player with
  | LoopStep.exit st1 effs => IterResult.exit st1 effs
  | LoopStep.timeout st1 => IterResult.timeout st1
  | LoopStep.dequeued st1 t =>
    match inner_loop st1 t trace with
    | InnerResult.pending st2 effs next => IterResult.pending st2 effs next
    | InnerResult.exited st2 effs =>
      match after_inner st2 denv with
      | AfterInner.toLoopTop st3 e3 => IterResult.toLoopTop st3 (effs ++ e3)
      | AfterInner.exit st3 e3 => IterResult.exit st3 (effs ++ e3)

/-- C1 counterexample: stopped is set, the queue holds one track, but the
node has disconnected. The loop top exits through the connectivity guard
(lines 403 to 406), which runs BEFORE the stop check: the driver terminates
without emptying the queue and without issuing stop or disconnect, so the
stop check is not the highest-priority guard and termination does not always
leave the queue empty. -/
theorem stop_with_disconnected_node_keeps_queue :
    loop_entry { GuildMusicState.init with stopped := true, queue := [⟨1, 2⟩] }
        (some ⟨false, none, false, false⟩) =
      LoopStep.exit { GuildMusicState.init with stopped := true, queue := [⟨1, 2⟩] } []
    ∧ ({ GuildMusicState.init with stopped := true, queue := [⟨1, 2⟩] } : GuildMusicState).queue
        ≠ [] := by
  exact ⟨rfl, by decide⟩

/-- C1 (amended): the stop check is the second guard at loop entry, after the
connectivity guard. Whenever the node is still connected and stopped is set,
the very next loop entry empties the queue, clears current and loop_enabled,
issues node stop and disconnect, clears the panel references and exits; and
while stopped is set the queue-ended tail is skipped, so a stop observed
mid-iteration reaches this guard within the same iteration. -/
theorem stopped_guard_spec (st : GuildMusicState) (p : PlayerState)
    (hc : p.connected = true) (hs : st.stopped = true) :
    loop_entry st (some p) =
      LoopStep.exit
        { st with
          stopped := false
          current := none
          loop_enabled := false
          queue := []
          panel_channel_id := none
          panel_message_id := none }
        [Effect.nodeStop, Effect.nodeDisconnect]
    ∧ ∀ env, after_inner st env = AfterInner.toLoopTop st [] := by
  constructor
  · simp [loop_entry, hc, hs, drain_queue_eq_nil]
  · intro env
    simp [after_inner, hs]

/-- Witness for stopped_guard_spec: a connected player and a dirty session
whose stop observation resets every field. -/
theorem stopped_guard_spec_witness :
    loop_entry
        { GuildMusicState.init with
          stopped := true
          queue := [⟨3, 4⟩]
          loop_enabled := true
          panel_channel_id := some 1
          panel_message_id := some 2 }
        (some ⟨true, some 9, true, false⟩) =
      LoopStep.exit GuildMusicState.init [Effect.nodeStop, Effect.nodeDisconnect] :=
  (stopped_guard_spec _ ⟨true, some 9, true, false⟩ rfl rfl).1

/-- C2 counterexample: queue exhausted, stopped and loop off, a live panel
and a known last play channel, but the node is gone when the idle sleep ends
(playerAfterSleep is none, lines 486 to 489). The driver terminates with only
the queue-ended panel edit: it neither resumes the main loop nor sends the
idle-leave notice nor issues a disconnect call, a third outcome the claim
omits. -/
theorem drain_disconnected_terminates_silently :
    after_inner
        { GuildMusicState.init with
          panel_channel_id := some 3
          panel_message_id := some 4
          last_play_text_channel_id := some 5 }
        ⟨true, [], none, true⟩ =
      AfterInner.exit
        { GuildMusicState.init with
          panel_channel_id := some 3
          panel_message_id := some 4
          last_play_text_channel_id := some 5 }
        [Effect.panelEditQueueEnded]
    ∧ Effect.nodeDisconnect ∉ [Effect.panelEditQueueEnded]
    ∧ ∀ ch, Effect.sendIdleLeave ch ∉ [Effect.panelEditQueueEnded] := by
  refine ⟨rfl, by decide, ?_⟩
  intro ch
  simp

/-- C2 (amended): after a track ends with queue empty, stopped and loop off,
a still-existing panel message is edited to the queue-ended render without
buttons, the driver sleeps the idle window, and then: if tracks arrived or
the node reports playing or paused it resumes the main loop; if the node is
still connected and idle it sends exactly one idle-leave notice to the
last-known play channel, issues exactly one disconnect call, clears the panel
references and terminates; if the node has disconnected during the wait it
terminates at once with neither notice nor disconnect call. -/
theorem queue_end_drain_spec (st : GuildMusicState) (env : DrainEnv) (p : PlayerState)
    (ch pc pm : Nat)
    (hq : st.queue = []) (hs : st.stopped = false) (hl : st.loop_enabled = false)
    (hpc : st.panel_channel_id = some pc) (hpm : st.panel_message_id = some pm)
    (hf : env.panelFetchOk = true)
    (hlc : st.last_play_text_channel_id = some ch) (hct : env.lastChannelIsText = true) :
    (env.playerAfterSleep = some p → p.connected = true →
      (env.arrivals ≠ [] ∨ p.playing = true ∨ p.paused = true) →
      after_inner st env =
        AfterInner.toLoopTop { st with queue := env.arrivals } [Effect.panelEditQueueEnded])
    ∧ (env.playerAfterSleep = some p → p.connected = true →
      env.arrivals = [] → p.playing = false → p.paused = false →
      after_inner st env =
        AfterInner.exit
          { st with current := none, panel_channel_id := none, panel_message_id := none }
          [Effect.panelEditQueueEnded, Effect.sendIdleLeave ch, Effect.nodeDisconnect]
      ∧ List.count Effect.nodeDisconnect
          [Effect.panelEditQueueEnded, Effect.sendIdleLeave ch, Effect.nodeDisconnect] = 1
      ∧ List.count (Effect.sendIdleLeave ch)
          [Effect.panelEditQueueEnded, Effect.sendIdleLeave ch, Effect.nodeDisconnect] = 1)
    ∧ (env.playerAfterSleep = none →
      after_inner st env =
        AfterInner.exit { st with queue := env.arrivals, current := none }
          [Effect.panelEditQueueEnded]) := by
  rcases st with ⟨q, cur, le, pci, pmi, sp, cu, lp, il⟩
  rcases env with ⟨pf, arr, pas, lct⟩
  simp only at hq hs hl hpc hpm hf hlc hct
  subst hq hs hl hpc hpm hf hlc hct
  refine ⟨?_, ?_, ?_⟩
  · intro hp hcon hcond
    subst hp
    simp [after_inner, get_panel_message_exists, hcon, hcond]
  · intro hp hcon harr hpl hpa
    subst hp harr
    refine ⟨?_, by simp [List.count_cons], by simp [List.count_cons]⟩
    simp [after_inner, get_panel_message_exists, send_to_last_play_channel, hcon, hpl, hpa]
  · intro hp
    subst hp
    simp [after_inner, get_panel_message_exists]

/-- Witness for queue_end_drain_spec: the idle-leave exit branch at a
concrete session. -/
theorem queue_end_drain_spec_witness :
    after_inner
        { GuildMusicState.init with
          panel_channel_id := some 3
          panel_message_id := some 4
          last_play_text_channel_id := some 5 }
        ⟨true, [], some ⟨true, some 9, false, false⟩, true⟩ =
      AfterInner.exit
        { GuildMusicState.init with last_play_text_channel_id := some 5 }
        [Effect.panelEditQueueEnded, Effect.sendIdleLeave 5, Effect.nodeDisconnect] :=
  ((queue_end_drain_spec _ _ ⟨true, some 9, false, false⟩ 5 3 4
      rfl rfl rfl rfl rfl rfl rfl rfl).2.1 rfl rfl rfl rfl rfl).1

/-- If every play attempt fails, the inner loop walks the whole queue: each
queued track is instructed in order, and the loop exits back into the
iteration tail with an empty queue, no current track and no other session
field touched. -/
theorem inner_loop_all_failed (qu : List Track) :
    ∀ (st : GuildMusicState) (t : Track), st.queue = qu →
      inner_loop st t (List.replicate (qu.length + 1) PlayOutcome.failed) =
        InnerResult.exited { st with queue := [], current := none }
          ((t :: qu).map Effect.nodePlay) := by
  induction qu with
  | nil =>
    intro st t h
    rcases st with ⟨q0, cur, le, pci, pmi, sp, cu, lp, il⟩
    simp only at h
    subst h
    simp [inner_loop, List.replicate]
  | cons t2 q ih =>
    intro st t h
    rcases st with ⟨q0, cur, le, pci, pmi, sp, cu, lp, il⟩
    simp only at h
    subst h
    rw [show (t2 :: q).length + 1 = (q.length + 1) + 1 by simp, List.replicate_succ]
    have step : inner_loop ⟨t2 :: q, cur, le, pci, pmi, sp, cu, lp, il⟩ t
        (PlayOutcome.failed :: List.replicate (q.length + 1) PlayOutcome.failed) =
      addEffects [Effect.nodePlay t]
        (inner_loop ⟨q, none, le, pci, pmi, sp, cu, lp, il⟩ t2
          (List.replicate (q.length + 1) PlayOutcome.failed)) := rfl
    rw [step, ih ⟨q, none, le, pci, pmi, sp, cu, lp, il⟩ t2 rfl]
    simp [addEffects]

/-- C3 counterexample: a single-track queue whose play instruction fails,
with no loop, no stop, and no new arrival during the idle window. The
iteration does not return to the idle dequeue loop: it falls into the
queue-ended tail and the driver terminates with an idle-leave notice and a
node disconnect, exactly as after a natural queue end — refuting that the
session continues rather than terminating. -/
theorem failure_exhaustion_can_terminate :
    run_iteration
        { GuildMusicState.init with
          queue := [⟨1, 2⟩]
          last_play_text_channel_id := some 7
          panel_channel_id := some 1
          panel_message_id := some 2 }
        (some ⟨true, some 9, false, false⟩)
        [PlayOutcome.failed]
        ⟨true, [], some ⟨true, some 9, false, false⟩, true⟩ =
      IterResult.exit
        { GuildMusicState.init with last_play_text_channel_id := some 7 }
        [Effect.nodePlay ⟨1, 2⟩, Effect.panelEditQueueEnded, Effect.sendIdleLeave 7,
          Effect.nodeDisconnect] := by
  rfl

/-- C3 (amended): when a play instruction fails the driver clears current and
immediately instructs the next queued track when one exists; when repeated
failures exhaust the queue, the inner loop exits back into the main loop body
with current cleared and the queue empty — it neither stalls nor returns at
the failure itself, and from there the iteration proceeds exactly as after a
natural queue end (idle drain, possible resume, else idle disconnect). -/
theorem play_failure_spec :
    (∀ (st : GuildMusicState) (t t2 : Track) (q : List Track) (rest : List PlayOutcome),
        st.queue = t2 :: q →
        inner_loop st t (PlayOutcome.failed :: rest) =
          addEffects [Effect.nodePlay t]
            (inner_loop { st with current := none, queue := q } t2 rest))
    ∧ (∀ (st : GuildMusicState) (t : Track),
        inner_loop st t (List.replicate (st.queue.length + 1) PlayOutcome.failed) =
          InnerResult.exited { st with queue := [], current := none }
            ((t :: st.queue).map Effect.nodePlay)) := by
  constructor
  · intro st t t2 q rest h
    simp only [inner_loop]
    rw [h]
  · intro st t
    exact inner_loop_all_failed st.queue st t rfl

/-- Witness for play_failure_spec: one failure with a further queued track
dequeues and instructs that track at once. -/
theorem play_failure_spec_witness :
    inner_loop { GuildMusicState.init with queue := [⟨5, 6⟩] } ⟨1, 2⟩
        [PlayOutcome.failed, PlayOutcome.failed] =
      addEffects [Effect.nodePlay ⟨1, 2⟩]
        (inner_loop { GuildMusicState.init with queue := [], current := none } ⟨5, 6⟩
          [PlayOutcome.failed]) :=
  play_failure_spec.1 _ ⟨1, 2⟩ ⟨5, 6⟩ [] [PlayOutcome.failed] rfl

/-- The shapes wavelink.Playable.search can return, per the dispatch at
lines 682 to 692: None, a wavelink.Playlist, a list or tuple, or a single
Playable. -/
inductive SearchResult where
  | noResult
  | playlist (l : List Playable)
  | trackList (l : List Playable)
  | single (p : Playable)
deriving DecidableEq

/-- Music.play lines 680 to 692: a playlist is capped at its first 200
entries, a list keeps only its first element, a bare result is a singleton. -/
def resolve_playables : SearchResult → List Playable
  | SearchResult.noResult => []
  | SearchResult.playlist l => if l.length > 200 then l.take 200 else l
  | SearchResult.trackList l => l.take 1
  | SearchResult.single p => [p]

/-- Music.play lines 694 to 705: empty resolution answers "no tracks found"
(modelled as none) without touching the session; otherwise a set stopped flag
is reset and each playable is wrapped as Track(playable, requester) and put
on the queue in order, counting the additions. -/
def play_enqueue (st : GuildMusicState) (uid : Nat) (res : SearchResult) :
    GuildMusicState × Option Nat :=
  let playables := resolve_playables res
  if playables = [] then (st, none)
  else
    let st1 := if st.stopped then { st with stopped := false } else st
    ({ st1 with queue := st1.queue ++ playables.map (fun pl => Track.mk pl uid) },
     some playables.length)

/-- C6: a resolved playlist contributes its first 200 entries in playlist
order (hence at most 200), a single match contributes exactly one track, a
list result its first element, and every resolved playable is wrapped with
the invoking user and appended to the queue in resolution order. -/
theorem play_resolution_spec :
    (∀ l : List Playable, resolve_playables (SearchResult.playlist l) = l.take 200)
    ∧ (∀ l : List Playable, (resolve_playables (SearchResult.playlist l)).length ≤ 200)
    ∧ (∀ p : Playable, resolve_playables (SearchResult.single p) = [p])
    ∧ (∀ (p : Playable) (rest : List Playable),
        resolve_playables (SearchResult.trackList (p :: rest)) = [p])
    ∧ (∀ st uid res, resolve_playables res ≠ [] →
        ((play_enqueue st uid res).1).queue =
          st.queue ++ (resolve_playables res).map (fun pl => Track.mk pl uid)
        ∧ (play_enqueue st uid res).2 = some (resolve_playables res).length) := by
  have hcap : ∀ l : List Playable,
      resolve_playables (SearchResult.playlist l) = l.take 200 := by
    intro l
    by_cases h : l.length > 200
    · simp [resolve_playables, h]
    · simp [resolve_playables, h, List.take_of_length_le (by omega : l.length ≤ 200)]
  refine ⟨hcap, ?_, fun p => rfl, ?_, ?_⟩
  · intro l
    rw [hcap l]
    simp [List.length_take]
  · intro p rest
    simp [resolve_playables]
  · intro st uid res h
    constructor
    · simp only [play_enqueue, if_neg h]
      split_ifs <;> simp
    · simp [play_enqueue, if_neg h]

/-- Witness for play_resolution_spec: enqueueing a two-entry playlist onto a
non-empty queue while stopped is set. -/
theorem play_resolution_spec_witness :
    ((play_enqueue { GuildMusicState.init with queue := [⟨9, 9⟩], stopped := true } 4
        (SearchResult.playlist [7, 8])).1).queue =
      [⟨9, 9⟩] ++ (resolve_playables (SearchResult.playlist [7, 8])).map
        (fun pl => Track.mk pl 4)
    ∧ (play_enqueue { GuildMusicState.init with queue := [⟨9, 9⟩], stopped := true } 4
        (SearchResult.playlist [7, 8])).2 =
      some (resolve_playables (SearchResult.playlist [7, 8])).length :=
  play_resolution_spec.2.2.2.2 _ 4 (SearchResult.playlist [7, 8]) (by decide)

/-- The failure oracles of Music.set_panel (lines 340 to 360): whether
get_panel_message finds the existing panel, whether the in-place edit
succeeds, and whether the fallback channel.send succeeds. -/
structure PanelEnv where
  fetchOk : Bool
  editOk : Bool
  sendOk : Bool
deriving DecidableEq

/-- Music.set_panel (lines 340 to 360). The in-place edit is wrapped in
try/except and falls through to the send on failure; the channel.send call at
line 358 is NOT wrapped, so its failure propagates to the caller, modelled as
Except.error. A successful send records the new message identity. -/
def set_panel (st : GuildMusicState) (channelId : Nat) (newMsgId : Nat) (env : PanelEnv) :
    Except String (GuildMusicState × List Effect) :=
  if get_panel_message_exists st env.fetchOk && env.editOk then
    Except.ok (st, [Effect.panelEditInPlace])
  else if env.sendOk then
    Except.ok
      ({ st with panel_channel_id := some channelId, panel_message_id := some newMsgId },
       [Effect.panelSendNew channelId newMsgId])
  else
    Except.error "send failed"

/-- The message a panel refresh would edit: Music.refresh_panel goes through
get_panel_message, which reads the stored channel and message ids. -/
def refresh_panel_target (st : GuildMusicState) : Option (Nat × Nat) :=
  match st.panel_channel_id, st.panel_message_id with
  | some c, some m => some (c, m)
  | _, _ => none

/-- C7 counterexample: an existing panel whose edit fails and whose fallback
send also fails. set_panel raises (Except.error): a send failure during panel
synchronization DOES propagate to the caller, since channel.send at line 358
is outside any try/except. -/
theorem set_panel_send_failure_raises :
    set_panel
        { GuildMusicState.init with panel_channel_id := some 1, panel_message_id := some 2 }
        9 99 ⟨true, false, false⟩ =
      Except.error "send failed" := by
  rfl

/-- C7 (amended): an existing panel message is edited in place, leaving the
recorded identity unchanged; if the edit fails (or no panel message is found)
and the fallback send succeeds, the new message identity is recorded so
subsequent refreshes target it; edit failures never propagate, but a failure
of the fallback send itself escapes set_panel (the /play caller catches it). -/
theorem set_panel_spec :
    (∀ st ch mid env, get_panel_message_exists st env.fetchOk = true → env.editOk = true →
        set_panel st ch mid env = Except.ok (st, [Effect.panelEditInPlace]))
    ∧ (∀ st ch mid env,
        (get_panel_message_exists st env.fetchOk = false ∨ env.editOk = false) →
        env.sendOk = true →
        set_panel st ch mid env =
          Except.ok
            ({ st with panel_channel_id := some ch, panel_message_id := some mid },
             [Effect.panelSendNew ch mid])
        ∧ refresh_panel_target
            { st with panel_channel_id := some ch, panel_message_id := some mid } =
          some (ch, mid))
    ∧ (∀ st ch mid env,
        (get_panel_message_exists st env.fetchOk = false ∨ env.editOk = false) →
        env.sendOk = false →
        set_panel st ch mid env = Except.error "send failed") := by
  refine ⟨?_, ?_, ?_⟩
  · intro st ch mid env hex hed
    simp [set_panel, hex, hed]
  · intro st ch mid env hor hsend
    have hcond : ¬ (get_panel_message_exists st env.fetchOk && env.editOk) = true := by
      rcases hor with h | h <;> simp [h]
    refine ⟨?_, rfl⟩
    simp only [set_panel, hsend]
    rw [if_neg hcond]
    simp
  · intro st ch mid env hor hsend
    have hcond : ¬ (get_panel_message_exists st env.fetchOk && env.editOk) = true := by
      rcases hor with h | h <;> simp [h]
    simp only [set_panel, hsend]
    rw [if_neg hcond]
    simp

/-- Witness for set_panel_spec: a deleted panel message (fetch fails) with a
successful fallback send recording the new identity. -/
theorem set_panel_spec_witness :
    set_panel
        { GuildMusicState.init with panel_channel_id := some 1, panel_message_id := some 2 }
        9 99 ⟨false, true, true⟩ =
      Except.ok
        ({ GuildMusicState.init with panel_channel_id := some 9, panel_message_id := some 99 },
         [Effect.panelSendNew 9 99])
    ∧ refresh_panel_target
        { GuildMusicState.init with panel_channel_id := some 9, panel_message_id := some 99 } =
      some (9, 99) :=
  set_panel_spec.2.1
    { GuildMusicState.init with panel_channel_id := some 1, panel_message_id := some 2 }
    9 99 ⟨false, true, true⟩ (Or.inl rfl) rfl
